import Mathlib

/-!
Verification development for the HealthGrid WhatsApp medical-triage core.

The definitions below are a shallow embedding of the TypeScript source:
`ConversationFlowManager` (conversation state machine), `WebhookHandler`
(ingestion pipeline), `ChatService` dedup queries, `SessionManager`, and
`detectLanguage` from the frontend AI service.  JavaScript string operations
(`toLowerCase`, `includes`, `startsWith`, `||` on possibly-undefined strings,
and the word-boundary regexes) are modelled explicitly.  Database writes
performed through `SessionManager`/`ChatService` are modelled as functional
updates on a `World` record.
-/

namespace HealthGrid

/-! ## JavaScript string primitives -/

/-- `a` is a leading segment of `b` (JS `String.startsWith`). -/
def leadsWith : List Char → List Char → Bool
  | [], _ => true
  | _ :: _, [] => false
  | a :: as, b :: bs => a == b && leadsWith as bs

/-- Drop a leading segment, returning the remainder when it matches. -/
def dropLead : List Char → List Char → Option (List Char)
  | [], cs => some cs
  | _ :: _, [] => none
  | a :: as, c :: cs => if a == c then dropLead as cs else none

/-- Substring occurrence test on character lists. -/
def hasSub (needle : List Char) : List Char → Bool
  | [] => leadsWith needle []
  | c :: cs => leadsWith needle (c :: cs) || hasSub needle cs

/-- JS `hay.includes(needle)`. -/
def jsIncludes (hay needle : String) : Bool :=
  hasSub needle.data hay.data

/-- JS `toLowerCase`, for the ASCII range used by the dictionaries
(all non-ASCII dictionary entries are already lowercase). -/
def jsLower (s : String) : String := ⟨s.data.map Char.toLower⟩

/-- Drop the first `n` characters of a string (JS `replace` of a leading tag). -/
def dropChars (n : Nat) (s : String) : String := ⟨s.data.drop n⟩

/-- JS truthiness of a possibly-undefined string: `undefined` and `""` are falsy. -/
def jsTruthy : Option String → Bool
  | none => false
  | some s => s ≠ ""

/-- JS `a || b` on possibly-undefined strings. -/
def jsOr (a b : Option String) : Option String :=
  if jsTruthy a then a else b

/-- JS `\w` word character class: `[A-Za-z0-9_]`. -/
def isWordChar (c : Char) : Bool :=
  ('a' ≤ c && c ≤ 'z') || ('A' ≤ c && c ≤ 'Z') || ('0' ≤ c && c ≤ '9') || c == '_'

/-- Whether an optional character counts as a word character (`none` = outside the string). -/
def isWordOpt : Option Char → Bool
  | some c => isWordChar c
  | none => false

/-- A `\b` word boundary sits between two characters iff exactly one side is a word character. -/
def bdry (a b : Option Char) : Bool := isWordOpt a != isWordOpt b

/-! ## Conversation state machine (`ConversationFlowManager`) -/

/-- The conversation states declared in the source (`conversationStates`). -/
inductive ConvState
  | INITIAL
  | LANGUAGE_SELECTION
  | COLLECTING_DEMOGRAPHICS
  | COLLECTING_SYMPTOMS
  | ASSESSING_SEVERITY
  | EMERGENCY_DETECTED
  | PROVIDER_MATCHING
  | APPOINTMENT_BOOKING
  | FOLLOW_UP
  | COMPLETED
deriving DecidableEq, Repr

open ConvState

/-- A session record.  `userData` (age, gender) and `triageData`
(symptoms, severity, riskScore) are flattened into typed fields;
the opaque generated `id` is represented by the `phoneNumber` key,
which identifies the session uniquely. -/
structure Session where
  phoneNumber : String
  conversationState : ConvState
  preferredLanguage : String
  age : Option Nat
  gender : Option String
  symptoms : List String
  severity : Option String
  riskScore : Option Nat
  selectedProvider : Option String
deriving DecidableEq, Repr

/-- The message object built by `WebhookHandler.processUserMessage` and
consumed by `manageConversation`. -/
structure Msg where
  original : String
  isButtonReply : Bool
  isListReply : Bool
  buttonId : Option String
  listId : Option String
deriving DecidableEq, Repr

/-- The outbound responses returned by the flow manager, keeping the source's
`type` tags and the data each branch carries; rendered localized strings are
identified by their `getLocalizedMessage` key and language. -/
inductive Reply
  | welcome
  | emergency (keyword : Option String)
  | localized (key : String) (lang : String)
  | langPrompt (lang : String)
  | followUp (lang : String)
  | triageResults (severity : String) (providerCount : Nat)
  | providerList (lang : String)
  | providerButtons (providerId : String)
  | hospitals
  | emergencyNumbers
  | unknownSelection
  | unknownState
deriving DecidableEq, Repr

/-- English emergency keywords from `checkForEmergency`. -/
def enEmergencyKeywords : List String :=
  ["emergency", "dying", "can\x27t breathe", "chest pain", "unconscious", "bleeding", "heart attack"]

/-- The per-language emergency keyword dictionary from `checkForEmergency`;
an unknown language falls back to the English list. -/
def emergencyKeywords : String → List String
  | "en" => enEmergencyKeywords
  | "pcm" => ["I dey die", "kasala", "wahala big", "emergency", "I no fit breathe"]
  | "yo" => ["pajawiri", "mo ń kú", "kíákíá", "ẹmi kò lè mí"]
  | "ha" => ["gaggawa", "ina mutuwa", "nan take", "ba zan iya numfashi ba"]
  | "ig" => ["mberede", "ana m anwụ", "ozugbo", "enweghị m ike iku ume"]
  | _ => enEmergencyKeywords

/-- Result of `checkForEmergency` (the matched keyword carries a fixed 0.9 confidence). -/
structure EmergencyCheck where
  isEmergency : Bool
  keyword : Option String
deriving DecidableEq, Repr

/-- `ConversationFlowManager.checkForEmergency`: case-insensitive substring
match against the per-language keyword list, first match wins. -/
def checkForEmergency (text : String) (language : String) : EmergencyCheck :=
  let keywords := emergencyKeywords language
  let lowerText := jsLower text
  match keywords.find? (fun k => jsIncludes lowerText (jsLower k)) with
  | some k => { isEmergency := true, keyword := some k }
  | none => { isEmergency := false, keyword := none }

/-- Symptom vocabulary from `extractSymptoms`. -/
def symptomKeywords : List String :=
  ["fever", "headache", "cough", "cold", "pain", "tired", "nausea",
   "vomit", "diarrhea", "stomach", "chest", "throat", "body aches"]

/-- `ConversationFlowManager.extractSymptoms`: the keywords found in the
lowercased text, in vocabulary order (each found entry is kept by name;
the source additionally tags fixed severity/duration constants). -/
def extractSymptoms (text : String) : List String :=
  let lowerText := jsLower text
  symptomKeywords.filter (fun s => jsIncludes lowerText s)

/-- Result of `performBasicTriage`. -/
structure TriageOutcome where
  symptoms : List String
  needsMoreInfo : Bool
deriving DecidableEq, Repr

/-- `ConversationFlowManager.performBasicTriage`: symptoms of the current
message only; more info is needed when fewer than 2 were found. -/
def performBasicTriage (text : String) : TriageOutcome :=
  let symptoms := extractSymptoms text
  { symptoms := symptoms, needsMoreInfo := symptoms.length < 2 }

/-- Maximal runs of `\w` word characters in a text (accumulator-based). -/
def wordRunsAux (cur : List Char) : List Char → List (List Char)
  | [] => if cur.isEmpty then [] else [cur.reverse]
  | c :: cs =>
    if isWordChar c then wordRunsAux (c :: cur) cs
    else if cur.isEmpty then wordRunsAux [] cs
    else cur.reverse :: wordRunsAux [] cs

/-- Maximal runs of word characters in a text. -/
def wordRuns (cs : List Char) : List (List Char) := wordRunsAux [] cs

/-- Decimal value of a digit run. -/
def digitsToNat (run : List Char) : Nat :=
  run.foldl (fun n c => 10 * n + (c.toNat - '0'.toNat)) 0

/-- The first match of the age regex `\b(\d{1,2})\b`: the first maximal
word-character run consisting solely of one or two digits. -/
def firstAgeToken (cs : List Char) : Option (List Char) :=
  (wordRuns cs).find? (fun r => r.all Char.isDigit && decide (1 ≤ r.length) && decide (r.length ≤ 2))

/-- The demographics bag extracted by `extractDemographics`; an absent field
models an absent key in the source's object. -/
structure Demographics where
  age : Option Nat
  gender : Option String
deriving DecidableEq, Repr

/-- `ConversationFlowManager.extractDemographics`: age from the first
`\b(\d{1,2})\b` match when it parses into `[1, 120]`; gender `male` only when
`male` occurs without `female`, else `female` when `female` occurs. -/
def extractDemographics (text : String) : Demographics :=
  let age :=
    match firstAgeToken text.data with
    | some run =>
      let a := digitsToNat run
      if 1 ≤ a ∧ a ≤ 120 then some a else none
    | none => none
  let lowerText := jsLower text
  let gender :=
    if jsIncludes lowerText "male" && !jsIncludes lowerText "female" then some "male"
    else if jsIncludes lowerText "female" then some "female"
    else none
  { age := age, gender := gender }

/-- The language-name map iterated by `handleLanguageSelection`, in source order. -/
def languageMap : List (String × String) :=
  [("english", "en"), ("pidgin", "pcm"), ("yoruba", "yo"), ("hausa", "ha"), ("igbo", "ig")]

/-- Language resolution in `handleLanguageSelection`: the first map entry whose
name occurs in the lowercased text, defaulting to `en`. -/
def languageFromText (text : String) : String :=
  let lowerMessage := jsLower text
  match languageMap.find? (fun e => jsIncludes lowerMessage e.1) with
  | some e => e.2
  | none => "en"

/-- The three mock providers returned by `findMockProviders` (by id). -/
def mockProviders : List String := ["1", "2", "3"]

/-- `handleInitialContact`: emergency check (hard-coded English list), else
welcome and advance to `LANGUAGE_SELECTION`. -/
def handleInitialContact (m : Msg) (s : Session) : Session × Reply :=
  let emergencyCheck := checkForEmergency m.original "en"
  if emergencyCheck.isEmergency then
    ({ s with conversationState := EMERGENCY_DETECTED }, Reply.emergency emergencyCheck.keyword)
  else
    ({ s with conversationState := LANGUAGE_SELECTION }, Reply.welcome)

/-- `handleLanguageSelection`: store the resolved language, advance to
`COLLECTING_DEMOGRAPHICS`, reply with hello + demographics prompt. -/
def handleLanguageSelection (m : Msg) (s : Session) : Session × Reply :=
  let selectedLanguage := languageFromText m.original
  ({ s with preferredLanguage := selectedLanguage,
            conversationState := COLLECTING_DEMOGRAPHICS },
   Reply.langPrompt selectedLanguage)

/-- `handleDemographicsCollection`: merge extracted demographics into the
session (spread semantics: present keys overwrite) and always advance to
`COLLECTING_SYMPTOMS`. -/
def handleDemographicsCollection (m : Msg) (s : Session) : Session × Reply :=
  let d := extractDemographics m.original
  ({ s with age := match d.age with | some a => some a | none => s.age,
            gender := match d.gender with | some g => some g | none => s.gender,
            conversationState := COLLECTING_SYMPTOMS },
   Reply.localized "symptoms_prompt" s.preferredLanguage)

/-- `performRiskAssessment`: the stubbed assessment is always
`MODERATE`/riskScore 3, so the non-emergency branch runs.  Its
`updateSession` call spreads `...session.triageData` of the IN-MEMORY request
object `mem` (which `updateSession` never mutates), and the `triageData`
column is replaced wholesale, so any symptoms persisted earlier in the same
turn are clobbered back to `mem`'s (stale, pre-message) list; `db` is the
persisted state accumulated so far in the turn.  Then advance to
`PROVIDER_MATCHING` with triage results. -/
def performRiskAssessment (mem db : Session) : Session × Reply :=
  let s1 := { db with symptoms := mem.symptoms, severity := some "MODERATE", riskScore := some 3 }
  ({ s1 with conversationState := PROVIDER_MATCHING },
   Reply.triageResults "MODERATE" mockProviders.length)

/-- `handleSymptomCollection`: emergency check in the session language first;
otherwise persist the current message's symptoms (replacing the stored list)
and either ask a follow-up (fewer than 2 found) or move to
`ASSESSING_SEVERITY` and run the risk assessment — which is handed the stale
in-memory session `s`, so its `triageData` write reverts the symptom list
just persisted. -/
def handleSymptomCollection (m : Msg) (s : Session) : Session × Reply :=
  let emergencyCheck := checkForEmergency m.original s.preferredLanguage
  if emergencyCheck.isEmergency then
    ({ s with conversationState := EMERGENCY_DETECTED }, Reply.emergency emergencyCheck.keyword)
  else
    let triageResult := performBasicTriage m.original
    let s1 := { s with symptoms := triageResult.symptoms }
    if triageResult.needsMoreInfo then
      (s1, Reply.followUp s.preferredLanguage)
    else
      performRiskAssessment s { s1 with conversationState := ASSESSING_SEVERITY }

/-- `handleProviderMatching`: list mock providers; no state change. -/
def handleProviderMatching (_m : Msg) (s : Session) : Session × Reply :=
  if mockProviders.length = 0 then
    (s, Reply.localized "no_providers_found" s.preferredLanguage)
  else
    (s, Reply.providerList s.preferredLanguage)

/-- `handleAppointmentBooking`: any input completes the conversation. -/
def handleAppointmentBooking (_m : Msg) (s : Session) : Session × Reply :=
  ({ s with conversationState := COMPLETED },
   Reply.localized "appointment_booked" s.preferredLanguage)

/-- `handleProviderSelection`: record the provider, advance to
`APPOINTMENT_BOOKING`, reply with booking buttons. -/
def handleProviderSelection (providerId : String) (s : Session) : Session × Reply :=
  ({ s with conversationState := APPOINTMENT_BOOKING, selectedProvider := some providerId },
   Reply.providerButtons providerId)

/-- `handleInteractiveReply`: global reply-id routing (`lang_*`, `provider_*`,
`find_hospitals`, `call_emergency`), independent of the current stage; any
other id gets the generic fallback text with no state change. -/
def handleInteractiveReply (m : Msg) (s : Session) : Session × Reply :=
  let replyId := jsOr m.buttonId m.listId
  match replyId with
  | some rid =>
    if leadsWith "lang_".data rid.data then
      let selectedLanguage := dropChars 5 rid
      ({ s with preferredLanguage := selectedLanguage,
                conversationState := COLLECTING_DEMOGRAPHICS },
       Reply.localized "demographics_prompt" selectedLanguage)
    else if leadsWith "provider_".data rid.data then
      handleProviderSelection (dropChars 9 rid) s
    else if rid = "find_hospitals" then
      (s, Reply.hospitals)
    else if rid = "call_emergency" then
      (s, Reply.emergencyNumbers)
    else
      (s, Reply.unknownSelection)
  | none => (s, Reply.unknownSelection)

/-- `handleUnknownState`: generic restart text, no state change. -/
def handleUnknownState (_m : Msg) (s : Session) : Session × Reply :=
  (s, Reply.unknownState)

/-- `ConversationFlowManager.manageConversation`: interactive replies are
routed first; otherwise dispatch on the current conversation state
(`EMERGENCY_DETECTED`, `FOLLOW_UP` and `COMPLETED` hit the default branch). -/
def manageConversation (m : Msg) (s : Session) : Session × Reply :=
  if m.isButtonReply || m.isListReply then
    handleInteractiveReply m s
  else
    match s.conversationState with
    | INITIAL => handleInitialContact m s
    | LANGUAGE_SELECTION => handleLanguageSelection m s
    | COLLECTING_DEMOGRAPHICS => handleDemographicsCollection m s
    | COLLECTING_SYMPTOMS => handleSymptomCollection m s
    | ASSESSING_SEVERITY => performRiskAssessment s s
    | PROVIDER_MATCHING => handleProviderMatching m s
    | APPOINTMENT_BOOKING => handleAppointmentBooking m s
    | _ => handleUnknownState m s

/-! ## Language detection (`detectLanguage` / `LANGUAGE_PATTERNS`) -/

/-- Try the alternatives in order at the current position of a regex of shape
`\b(a1|a2|...)\b`: the first alternative that is a leading segment here and
whose two ends sit on word boundaries wins; returns it with the remainder. -/
def altsMatch (prev : Option Char) (cs : List Char) :
    List (List Char) → Option (List Char × List Char)
  | [] => none
  | a :: rest =>
    match dropLead a cs with
    | some after =>
      if bdry prev cs.head? && bdry a.getLast? after.head? then some (a, after)
      else altsMatch prev cs rest
    | none => altsMatch prev cs rest

/-- Count the global (`g` flag) matches of `\b(a1|a2|...)\b`: scan left to
right, counting a match and resuming after it, else stepping one character.
The fuel starts at the text length; every step consumes it. -/
def scanCount (alts : List (List Char)) : Nat → Option Char → List Char → Nat
  | 0, _, _ => 0
  | fuel + 1, prev, cs =>
    match cs with
    | [] => 0
    | c :: rest =>
      match altsMatch prev cs alts with
      | some (a, after) => 1 + scanCount alts fuel a.getLast? after
      | none => scanCount alts fuel (some c) rest

/-- Matches of one alternation regex over a (lowercased) text. -/
def countRegex (alts : List String) (lowerText : String) : Nat :=
  scanCount (alts.map String.data) lowerText.data.length none lowerText.data

/-- `LANGUAGE_PATTERNS.pidgin`, first and second regex. -/
def pidginAlts1 : List String :=
  ["wetin", "dey", "no", "na", "go", "fit", "sabi", "abi", "sha", "oya", "make", "dem", "una", "dis", "dat"]
def pidginAlts2 : List String :=
  ["how far", "how body", "i wan", "e be say", "no wahala", "small small"]

/-- `LANGUAGE_PATTERNS.yoruba`. -/
def yorubaAlts1 : List String :=
  ["bawo", "pele", "emi", "iwo", "wa", "ni", "ti", "se", "ko", "fun", "ninu", "lati", "si", "ati"]
def yorubaAlts2 : List String :=
  ["mo fe", "mo ni", "o dara", "alafia", "ese", "tutu", "gbona", "inu", "ori", "owo"]

/-- `LANGUAGE_PATTERNS.igbo`. -/
def igboAlts1 : List String :=
  ["kedu", "ndewo", "m", "gi", "ka", "nke", "ya", "ndi", "unu", "aha", "obi", "isi", "aka"]
def igboAlts2 : List String :=
  ["achoro m", "o di mma", "nke oma", "nnoo", "daalu", "aru", "onya", "mmiri"]

/-- `LANGUAGE_PATTERNS.hausa`. -/
def hausaAlts1 : List String :=
  ["sannu", "yaya", "ina", "ka", "ki", "mu", "su", "da", "a", "ba", "ko", "mai", "wannan", "wancan"]
def hausaAlts2 : List String :=
  ["lafiya", "maraba", "na gode", "ina son", "ba komai", "jiki", "kai", "hannu", "kafa"]

/-- Score of one language: the summed match counts of its two regexes on the
lowercased text. -/
def langScore (alts1 alts2 : List String) (text : String) : Nat :=
  let lowerText := jsLower text
  countRegex alts1 lowerText + countRegex alts2 lowerText

def pidginScore (text : String) : Nat := langScore pidginAlts1 pidginAlts2 text
def yorubaScore (text : String) : Nat := langScore yorubaAlts1 yorubaAlts2 text
def igboScore (text : String) : Nat := langScore igboAlts1 igboAlts2 text
def hausaScore (text : String) : Nat := langScore hausaAlts1 hausaAlts2 text

/-- `detectLanguage`: score the four languages in declared object order and
reduce with `a.score > b.score ? a : b` (so a tie moves to the later entry);
return the winner when its score is positive, else `english`. -/
def detectLanguage (text : String) : String :=
  let scores : List (String × Nat) :=
    [("pidgin", pidginScore text), ("yoruba", yorubaScore text),
     ("igbo", igboScore text), ("hausa", hausaScore text)]
  match scores with
  | [] => "english"
  | h :: rest =>
    let w := rest.foldl (fun a b => if a.2 > b.2 then a else b) h
    if w.2 > 0 then w.1 else "english"

/-! ## Webhook ingestion pipeline (`WebhookHandler`, `ChatService`, `SessionManager`) -/

/-- The `payload.payload` sub-object of a Gupshup webhook payload. -/
structure InnerPayload where
  ptype : Option String
  senderPhone : Option String
  text : Option String
  title : Option String
  rid : Option String
  caption : Option String
deriving DecidableEq, Repr

/-- A raw webhook payload (`payload.type`, `payload.mobile`, `payload.text`,
`payload.id`, and the optional nested `payload.payload`). -/
structure Payload where
  pid : Option String
  ptype : Option String
  mobile : Option String
  text : Option String
  inner : Option InnerPayload
deriving DecidableEq, Repr

/-- `payload.payload?.sender?.phone || payload.mobile`. -/
def resolvedPhone (p : Payload) : Option String :=
  jsOr (p.inner.bind InnerPayload.senderPhone) p.mobile

/-- The basic phone-format regex `^\+?[1-9]\d{1,14}$`. -/
def phoneFormatOk (s : String) : Bool :=
  let cs := match s.data with
    | '+' :: rest => rest
    | cs => cs
  match cs with
  | [] => false
  | c :: rest =>
    ('1' ≤ c && c ≤ '9') && rest.all Char.isDigit &&
      decide (1 ≤ rest.length) && decide (rest.length ≤ 14)

/-- `WebhookHandler.validateWebhookPayload` (with `none` modelling a missing
payload object): collects the error strings of the source. -/
def validateWebhookPayload (op : Option Payload) : List String :=
  match op with
  | none => ["Empty payload"]
  | some p =>
    let e1 :=
      if !jsTruthy p.ptype && !jsTruthy (p.inner.bind InnerPayload.ptype) then
        ["Missing message type"]
      else []
    let phone := resolvedPhone p
    let e2 := if !jsTruthy phone then ["Missing phone number"] else []
    let e3 :=
      if jsTruthy phone && !phoneFormatOk (phone.getD "") then
        ["Invalid phone number format"]
      else []
    e1 ++ e2 ++ e3

/-- The canonical message built by `GupshupService.parseIncomingMessage`. -/
structure MessageData where
  messageId : Option String
  phoneNumber : String
  messageType : Option String
  content : Option String
  isButtonReply : Bool
  isListReply : Bool
  buttonId : Option String
  listId : Option String
deriving DecidableEq, Repr

/-- `GupshupService.parseIncomingMessage`: normalize a payload into a
`MessageData`, switching on `payload.payload?.type || payload.type`. -/
def parseIncomingMessage (p : Payload) : MessageData :=
  let messageType := jsOr (p.inner.bind InnerPayload.ptype) p.ptype
  let base : MessageData :=
    { messageId := p.pid, phoneNumber := (resolvedPhone p).getD "",
      messageType := messageType, content := none,
      isButtonReply := false, isListReply := false,
      buttonId := none, listId := none }
  match messageType with
  | some "text" => { base with content := jsOr (p.inner.bind InnerPayload.text) p.text }
  | some "button_reply" =>
    { base with content := p.inner.bind InnerPayload.title,
                buttonId := p.inner.bind InnerPayload.rid, isButtonReply := true }
  | some "list_reply" =>
    { base with content := p.inner.bind InnerPayload.title,
                listId := p.inner.bind InnerPayload.rid, isListReply := true }
  | some "image" | some "document" | some "audio" =>
    { base with content := jsOr (p.inner.bind InnerPayload.caption) (some "Media received") }
  | _ => { base with content := some "Unsupported message type" }

/-- `WebhookHandler.isStatusMessage`: delivery-status payload types that
short-circuit processing. -/
def isStatusMessage (p : Payload) : Bool :=
  let statusTypes := ["delivered", "read", "sent", "failed", "enroute"]
  (match p.ptype with | some t => statusTypes.contains t | none => false) ||
  (match p.inner.bind InnerPayload.ptype with | some t => statusTypes.contains t | none => false)

/-- The persistent state: processed markers — one per
`markWebhookMessageProcessed` insertion, keyed by `(messageId, phoneNumber)` —
and the session per phone number. -/
structure World where
  processed : List (String × String)
  sessions : List (String × Session)
deriving DecidableEq, Repr

/-- `ChatService.isMessageProcessed`: a history row for this phone carries
this message id in its metadata. -/
def isMessageProcessed (mid pn : String) (w : World) : Bool :=
  decide ((mid, pn) ∈ w.processed)

/-- `ChatService.markWebhookMessageProcessed`: insert the marker row. -/
def markWebhookMessageProcessed (mid pn : String) (w : World) : World :=
  { w with processed := (mid, pn) :: w.processed }

/-- The fresh session built by `SessionManager.getOrCreateSession`. -/
def newSession (pn : String) : Session :=
  { phoneNumber := pn, conversationState := INITIAL, preferredLanguage := "en",
    age := none, gender := none, symptoms := [], severity := none,
    riskScore := none, selectedProvider := none }

/-- `SessionManager.getOrCreateSession`: return the existing session for the
phone number, else create one in stage `INITIAL`. -/
def getOrCreateSession (pn : String) (w : World) : Session × World :=
  match w.sessions.lookup pn with
  | some s => (s, w)
  | none => (newSession pn, { w with sessions := (pn, newSession pn) :: w.sessions })

/-- Persist the session updates accumulated during `manageConversation`
(the source writes them through `SessionManager.updateSession`). -/
def putSession (pn : String) (s : Session) (w : World) : World :=
  { w with sessions := (pn, s) :: w.sessions.filter (fun e => e.1 ≠ pn) }

/-- The message object that `processUserMessage` hands to the flow manager.
(The source passes the raw `content`; a message with absent content faults at
the first text dereference and is answered by the catch-all error reply with
no state change — not exercised by any claim.) -/
def toMsg (md : MessageData) : Msg :=
  { original := md.content.getD "", isButtonReply := md.isButtonReply,
    isListReply := md.isListReply, buttonId := md.buttonId, listId := md.listId }

/-- `WebhookHandler.processUserMessage`: dedup check (when a message id is
present) before any session access, then get-or-create session, mark
processed, and run the state machine, persisting the updated session. -/
def processUserMessage (md : MessageData) (w : World) : World × Option Reply :=
  match md.messageId with
  | some mid =>
    if isMessageProcessed mid md.phoneNumber w then (w, none)
    else
      let sw := getOrCreateSession md.phoneNumber w
      let w2 := markWebhookMessageProcessed mid md.phoneNumber sw.2
      let sr := manageConversation (toMsg md) sw.1
      (putSession md.phoneNumber sr.1 w2, some sr.2)
  | none =>
    let sw := getOrCreateSession md.phoneNumber w
    let sr := manageConversation (toMsg md) sw.1
    (putSession md.phoneNumber sr.1 sw.2, some sr.2)

/-- Result of `WebhookHandler.processWebhook`. -/
inductive WebhookResult
  | invalid (errors : List String)
  | statusProcessed
  | success (reply : Option Reply)
deriving DecidableEq, Repr

/-- `WebhookHandler.processWebhook`: validate, short-circuit delivery-status
payloads, then parse and process; validation failure rejects before any
session access. -/
def processWebhook (op : Option Payload) (w : World) : World × WebhookResult :=
  let errs := validateWebhookPayload op
  if errs.isEmpty then
    match op with
    | none => (w, WebhookResult.invalid ["Empty payload"])
    | some p =>
      if isStatusMessage p then (w, WebhookResult.statusProcessed)
      else
        let md := parseIncomingMessage p
        let wr := processUserMessage md w
        (wr.1, WebhookResult.success wr.2)
  else (w, WebhookResult.invalid errs)

/-! ## Rank of the spec's fixed stage ordering, and concrete example inputs -/

/-- Position of a stage in the spec's fixed ordering
`INITIAL < LANGUAGE_SELECTION < COLLECTING_DEMOGRAPHICS < COLLECTING_SYMPTOMS
< ASSESSING_SEVERITY < PROVIDER_MATCHING < APPOINTMENT_BOOKING < COMPLETED`;
`FOLLOW_UP` and `EMERGENCY_DETECTED` sit outside that chain and get sentinel
ranks above it. -/
def stageRank : ConvState → Nat
  | INITIAL => 0
  | LANGUAGE_SELECTION => 1
  | COLLECTING_DEMOGRAPHICS => 2
  | COLLECTING_SYMPTOMS => 3
  | ASSESSING_SEVERITY => 4
  | PROVIDER_MATCHING => 5
  | APPOINTMENT_BOOKING => 6
  | COMPLETED => 7
  | FOLLOW_UP => 8
  | EMERGENCY_DETECTED => 9

/-- A plain inbound text message. -/
def textMsg (t : String) : Msg :=
  { original := t, isButtonReply := false, isListReply := false, buttonId := none, listId := none }

/-- An inbound button reply carrying a structured reply id. -/
def btnMsg (rid : String) : Msg :=
  { original := "", isButtonReply := true, isListReply := false, buttonId := some rid, listId := none }

/-- A fresh session moved to the given stage. -/
def sessionAt (st : ConvState) : Session :=
  { newSession "p" with conversationState := st }

/-- A concrete parsed text message carrying a channel message id. -/
def exMd : MessageData :=
  { messageId := some "m1", phoneNumber := "p", messageType := some "text",
    content := some "hello", isButtonReply := false, isListReply := false,
    buttonId := none, listId := none }

/-- The same payload with no channel message id. -/
def exMdNoId : MessageData := { exMd with messageId := none }

/-- A world in which `("m1", "p")` is already marked processed. -/
def exWorld : World := { processed := [("m1", "p")], sessions := [] }

/-- An empty world. -/
def emptyWorld : World := { processed := [], sessions := [] }

/-! ## Theorems -/

/-- C1 counterexample: in stage `COLLECTING_DEMOGRAPHICS` a message consisting
of the configured English emergency keyword `emergency` does NOT drive the
stage to `EMERGENCY_DETECTED` — it advances to `COLLECTING_SYMPTOMS`, because
`manageConversation` only consults the emergency classifier in `INITIAL` and
`COLLECTING_SYMPTOMS`. -/
theorem c1_counterexample :
    (checkForEmergency "emergency" "en").isEmergency = true ∧
    (manageConversation (textMsg "emergency")
      (sessionAt COLLECTING_DEMOGRAPHICS)).1.conversationState = COLLECTING_SYMPTOMS ∧
    (manageConversation (textMsg "emergency")
      (sessionAt COLLECTING_DEMOGRAPHICS)).1.conversationState ≠ EMERGENCY_DETECTED := by
  decide

/-- C1 amended: only the stages that run the emergency check short-circuit to
`EMERGENCY_DETECTED`: `INITIAL` (against the hard-coded English keyword list)
and `COLLECTING_SYMPTOMS` (against the session language's list). -/
theorem c1_emergency_shortcircuit (s : Session) (m : Msg)
    (hb : m.isButtonReply = false) (hl : m.isListReply = false) :
    (s.conversationState = INITIAL →
      (checkForEmergency m.original "en").isEmergency = true →
      (manageConversation m s).1.conversationState = EMERGENCY_DETECTED) ∧
    (s.conversationState = COLLECTING_SYMPTOMS →
      (checkForEmergency m.original s.preferredLanguage).isEmergency = true →
      (manageConversation m s).1.conversationState = EMERGENCY_DETECTED) := by
  constructor <;> intro hs he <;>
    simp [manageConversation, hb, hl, hs, handleInitialContact, handleSymptomCollection, he]

/-- C1 witness: the emergency short-circuit theorem applied at a concrete
emergency message in stage `COLLECTING_SYMPTOMS`. -/
theorem c1_witness :
    (manageConversation (textMsg "I can\x27t breathe, emergency")
      (sessionAt COLLECTING_SYMPTOMS)).1.conversationState = EMERGENCY_DETECTED :=
  (c1_emergency_shortcircuit (sessionAt COLLECTING_SYMPTOMS)
    (textMsg "I can\x27t breathe, emergency") rfl rfl).2 rfl (by decide)

/-- C2 counterexample: a session in `COLLECTING_SYMPTOMS` receiving
`"I have a headache"` (one symptom) and then `"and a fever"` (one more
symptom) is still in `COLLECTING_SYMPTOMS` after the second message — the
threshold is evaluated against the current message's extraction only, and the
stored list is overwritten, so the cumulative count never reaches 2. -/
theorem c2_counterexample :
    extractSymptoms "I have a headache" = ["headache"] ∧
    extractSymptoms "and a fever" = ["fever"] ∧
    (manageConversation (textMsg "I have a headache")
      (sessionAt COLLECTING_SYMPTOMS)).1.conversationState = COLLECTING_SYMPTOMS ∧
    (manageConversation (textMsg "and a fever")
      (manageConversation (textMsg "I have a headache")
        (sessionAt COLLECTING_SYMPTOMS)).1).1.conversationState = COLLECTING_SYMPTOMS ∧
    (manageConversation (textMsg "and a fever")
      (manageConversation (textMsg "I have a headache")
        (sessionAt COLLECTING_SYMPTOMS)).1).1.conversationState ≠ ASSESSING_SEVERITY ∧
    (manageConversation (textMsg "and a fever")
      (manageConversation (textMsg "I have a headache")
        (sessionAt COLLECTING_SYMPTOMS)).1).1.symptoms = ["fever"] := by
  decide

/-- C2 amended: in `COLLECTING_SYMPTOMS` (no emergency fired), the transition
depends on the current message alone, not on a cumulative count.  With fewer
than 2 symptom keywords in the message the stage stays, a follow-up question
is emitted, and the stored list is replaced by the message's extraction.
With 2 or more the stage advances through the stubbed MODERATE assessment to
`PROVIDER_MATCHING` — but the assessment's stale in-memory `triageData`
spread clobbers the symptoms written moments earlier, so the persisted list
ends as the pre-message value. -/
theorem c2_symptom_threshold (s : Session) (m : Msg)
    (hb : m.isButtonReply = false) (hl : m.isListReply = false)
    (hs : s.conversationState = COLLECTING_SYMPTOMS)
    (he : (checkForEmergency m.original s.preferredLanguage).isEmergency = false) :
    ((extractSymptoms m.original).length < 2 →
      (manageConversation m s).1.conversationState = COLLECTING_SYMPTOMS ∧
      (manageConversation m s).1.symptoms = extractSymptoms m.original ∧
      (manageConversation m s).2 = Reply.followUp s.preferredLanguage) ∧
    (2 ≤ (extractSymptoms m.original).length →
      (manageConversation m s).1.conversationState = PROVIDER_MATCHING ∧
      (manageConversation m s).1.symptoms = s.symptoms ∧
      (manageConversation m s).1.severity = some "MODERATE") := by
  constructor <;> intro hn <;>
    simp [manageConversation, hb, hl, hs, handleSymptomCollection, he,
      performBasicTriage, performRiskAssessment, hn, Nat.not_lt.mpr hn]

/-- C2 witness: the per-message threshold theorem applied at a one-symptom
message (stays, follow-up) in a fresh `COLLECTING_SYMPTOMS` session, and at a
two-symptom message in a session with stored symptoms `["headache"]`
(advances, and the persisted list reverts to the pre-message value). -/
theorem c2_witness :
    (manageConversation (textMsg "I have a headache")
      (sessionAt COLLECTING_SYMPTOMS)).1.conversationState = COLLECTING_SYMPTOMS ∧
    (manageConversation (textMsg "I have a headache")
      (sessionAt COLLECTING_SYMPTOMS)).2 = Reply.followUp "en" ∧
    (manageConversation (textMsg "fever and cough")
      { sessionAt COLLECTING_SYMPTOMS with symptoms := ["headache"] }).1.conversationState
      = PROVIDER_MATCHING ∧
    (manageConversation (textMsg "fever and cough")
      { sessionAt COLLECTING_SYMPTOMS with symptoms := ["headache"] }).1.symptoms
      = ["headache"] :=
  ⟨((c2_symptom_threshold (sessionAt COLLECTING_SYMPTOMS) (textMsg "I have a headache")
      rfl rfl rfl (by decide)).1 (by decide)).1,
   ((c2_symptom_threshold (sessionAt COLLECTING_SYMPTOMS) (textMsg "I have a headache")
      rfl rfl rfl (by decide)).1 (by decide)).2.2,
   ((c2_symptom_threshold { sessionAt COLLECTING_SYMPTOMS with symptoms := ["headache"] }
      (textMsg "fever and cough") rfl rfl rfl (by decide)).2 (by decide)).1,
   ((c2_symptom_threshold { sessionAt COLLECTING_SYMPTOMS with symptoms := ["headache"] }
      (textMsg "fever and cough") rfl rfl rfl (by decide)).2 (by decide)).2.1.trans rfl⟩

/-- C9 counterexample: a session in terminal stage `COMPLETED` that receives
the structured button reply `lang_en` is moved back to
`COLLECTING_DEMOGRAPHICS` — the state machine does mutate the stage of a
terminal session on interactive replies. -/
theorem c9_counterexample :
    (manageConversation (btnMsg "lang_en")
      (sessionAt COMPLETED)).1.conversationState = COLLECTING_DEMOGRAPHICS ∧
    (manageConversation (btnMsg "lang_en")
      (sessionAt COMPLETED)).1.conversationState ≠ COMPLETED := by
  decide

/-- C9 amended: in `EMERGENCY_DETECTED` or `COMPLETED`, every NON-interactive
inbound message is answered (with the generic restart text) and leaves the
stage unchanged; interactive `lang_*`/`provider_*` replies can still move the
stage. -/
theorem c9_terminal_text_messages (s : Session) (m : Msg)
    (hb : m.isButtonReply = false) (hl : m.isListReply = false)
    (hs : s.conversationState = EMERGENCY_DETECTED ∨ s.conversationState = COMPLETED) :
    (manageConversation m s).1.conversationState = s.conversationState ∧
    (manageConversation m s).2 = Reply.unknownState := by
  rcases hs with hs | hs <;>
    simp [manageConversation, hb, hl, hs, handleUnknownState]

/-- C9 witness: the terminal-stage theorem applied to a text message arriving
in `EMERGENCY_DETECTED`. -/
theorem c9_witness :
    (manageConversation (textMsg "hello")
      (sessionAt EMERGENCY_DETECTED)).1.conversationState = EMERGENCY_DETECTED ∧
    (manageConversation (textMsg "hello")
      (sessionAt EMERGENCY_DETECTED)).2 = Reply.unknownState := by
  have h := c9_terminal_text_messages (sessionAt EMERGENCY_DETECTED) (textMsg "hello")
    rfl rfl (Or.inl rfl)
  exact ⟨h.1.trans rfl, h.2⟩

/-- C3 counterexample: the structured reply `lang_en` moves a session from
`PROVIDER_MATCHING` back to `COLLECTING_DEMOGRAPHICS` without any emergency —
a stage regression in the spec's fixed ordering. -/
theorem c3_counterexample :
    (manageConversation (btnMsg "lang_en")
      (sessionAt PROVIDER_MATCHING)).1.conversationState = COLLECTING_DEMOGRAPHICS ∧
    stageRank ((manageConversation (btnMsg "lang_en")
      (sessionAt PROVIDER_MATCHING)).1.conversationState)
      < stageRank (sessionAt PROVIDER_MATCHING).conversationState := by
  decide

/-- C3 amended: for NON-interactive messages, absent an emergency transition,
the stage never regresses in the fixed ordering; structured `lang_*` /
`provider_*` replies are exempt and can regress the stage. -/
theorem c3_stage_monotonicity (s : Session) (m : Msg)
    (hb : m.isButtonReply = false) (hl : m.isListReply = false)
    (hne : (manageConversation m s).1.conversationState ≠ EMERGENCY_DETECTED) :
    stageRank s.conversationState ≤ stageRank (manageConversation m s).1.conversationState := by
  cases hcs : s.conversationState <;>
    simp only [manageConversation, hb, hl, Bool.or_self, Bool.false_or, if_false, hcs,
      handleInitialContact, handleLanguageSelection, handleDemographicsCollection,
      handleSymptomCollection, performBasicTriage, performRiskAssessment,
      handleProviderMatching, handleAppointmentBooking, handleUnknownState,
      mockProviders] at hne ⊢ <;>
    split_ifs at hne ⊢ <;> simp_all [stageRank]

/-- C3 witness: monotonicity applied to a demographics answer in
`COLLECTING_DEMOGRAPHICS`. -/
theorem c3_witness :
    stageRank (sessionAt COLLECTING_DEMOGRAPHICS).conversationState ≤
      stageRank ((manageConversation (textMsg "I am 25 years old, male")
        (sessionAt COLLECTING_DEMOGRAPHICS)).1.conversationState) :=
  c3_stage_monotonicity (sessionAt COLLECTING_DEMOGRAPHICS)
    (textMsg "I am 25 years old, male") rfl rfl (by decide)

/-- C7 counterexample: the unmatched structured reply id `book_now` (one of
the booking buttons) in stage `APPOINTMENT_BOOKING` does NOT fall through to
the stage handler: the session is unchanged and the generic fallback is sent,
while the stage handler would have completed the conversation. -/
theorem c7_counterexample :
    manageConversation (btnMsg "book_now") (sessionAt APPOINTMENT_BOOKING)
      = (sessionAt APPOINTMENT_BOOKING, Reply.unknownSelection) ∧
    (handleAppointmentBooking (btnMsg "book_now")
      (sessionAt APPOINTMENT_BOOKING)).1.conversationState = COMPLETED := by
  decide

/-- C7 amended: structured reply ids are matched against the global patterns
(`lang_*`, then `provider_*`, then `find_hospitals` / `call_emergency`)
independently of the current stage, but a reply id matching none of them gets
the generic fallback reply with no state change — there is no fall-through to
the stage-specific handler. -/
theorem c7_reply_routing (s : Session) (m : Msg)
    (hi : (m.isButtonReply || m.isListReply) = true) :
    (∀ rid, jsOr m.buttonId m.listId = some rid →
      (leadsWith "lang_".data rid.data = true →
        (manageConversation m s).1.conversationState = COLLECTING_DEMOGRAPHICS ∧
        (manageConversation m s).1.preferredLanguage = dropChars 5 rid ∧
        (manageConversation m s).2 = Reply.localized "demographics_prompt" (dropChars 5 rid)) ∧
      (leadsWith "lang_".data rid.data = false →
       leadsWith "provider_".data rid.data = true →
        (manageConversation m s).1.conversationState = APPOINTMENT_BOOKING ∧
        (manageConversation m s).1.selectedProvider = some (dropChars 9 rid)) ∧
      (leadsWith "lang_".data rid.data = false →
       leadsWith "provider_".data rid.data = false →
       rid ≠ "find_hospitals" → rid ≠ "call_emergency" →
        manageConversation m s = (s, Reply.unknownSelection))) ∧
    (jsOr m.buttonId m.listId = none →
      manageConversation m s = (s, Reply.unknownSelection)) := by
  constructor
  · intro rid hrid
    refine ⟨fun h1 => ?_, fun h1 h2 => ?_, fun h1 h2 h3 h4 => ?_⟩ <;>
      simp [manageConversation, hi, handleInteractiveReply, hrid, h1,
        handleProviderSelection] <;> simp_all
  · intro hrid
    simp [manageConversation, hi, handleInteractiveReply, hrid]

/-- C7 witness: global routing applied to a `lang_yo` reply arriving in stage
`COMPLETED` (out of turn). -/
theorem c7_witness :
    (manageConversation (btnMsg "lang_yo")
      (sessionAt COMPLETED)).1.conversationState = COLLECTING_DEMOGRAPHICS ∧
    (manageConversation (btnMsg "lang_yo")
      (sessionAt COMPLETED)).1.preferredLanguage = dropChars 5 "lang_yo" :=
  ⟨(((c7_reply_routing (sessionAt COMPLETED) (btnMsg "lang_yo") rfl).1
      "lang_yo" rfl).1 (by decide)).1,
   (((c7_reply_routing (sessionAt COMPLETED) (btnMsg "lang_yo") rfl).1
      "lang_yo" rfl).1 (by decide)).2.1⟩

/-- C4: deduplication. For a message carrying a channel message id: a
processed `(id, phone)` pair makes the pipeline a complete no-op (the world is
untouched, the state machine is not invoked, no outbound intent); after any
run the marker is recorded; hence delivering the identical payload twice
performs exactly one transition — the second run is a no-op. -/
theorem c4_dedup_idempotent (w : World) (md : MessageData) (mid : String)
    (hid : md.messageId = some mid) :
    (isMessageProcessed mid md.phoneNumber w = true →
      processUserMessage md w = (w, none)) ∧
    isMessageProcessed mid md.phoneNumber (processUserMessage md w).1 = true ∧
    processUserMessage md (processUserMessage md w).1
      = ((processUserMessage md w).1, none) := by
  have hket : ∀ pn w', (getOrCreateSession pn w').2.processed = w'.processed := by
    intro pn w'
    unfold getOrCreateSession
    cases w'.sessions.lookup pn <;> simp
  have hnoop : ∀ w', isMessageProcessed mid md.phoneNumber w' = true →
      processUserMessage md w' = (w', none) := by
    intro w' h
    simp [processUserMessage, hid, h]
  by_cases h : isMessageProcessed mid md.phoneNumber w = true
  · refine ⟨hnoop w, ?_, ?_⟩
    · rw [hnoop w h]; exact h
    · rw [hnoop w h]; exact hnoop w h
  · have hmark : isMessageProcessed mid md.phoneNumber (processUserMessage md w).1 = true := by
      simp only [processUserMessage, hid, h, if_false, Bool.false_eq_true]
      simp [isMessageProcessed, putSession, markWebhookMessageProcessed, hket]
    exact ⟨fun hc => absurd hc h, hmark, hnoop _ hmark⟩

/-- C4 witness: the dedup theorem applied to a concrete already-processed
message id. -/
theorem c4_witness : processUserMessage exMd exWorld = (exWorld, none) :=
  (c4_dedup_idempotent exWorld exMd "m1" rfl).1 (by decide)

/-- C10: a parsed message with no channel message id skips deduplication
entirely: no marker is consulted or written (the processed set is unchanged),
and the state machine runs on the stored (or fresh) session and produces an
outbound intent — so an identical redelivery is processed anew as well. -/
theorem c10_no_id_skips_dedup (w : World) (md : MessageData)
    (hid : md.messageId = none) :
    (processUserMessage md w).1.processed = w.processed ∧
    (processUserMessage md w).2
      = some (manageConversation (toMsg md) (getOrCreateSession md.phoneNumber w).1).2 ∧
    (processUserMessage md w).1.sessions.lookup md.phoneNumber
      = some (manageConversation (toMsg md) (getOrCreateSession md.phoneNumber w).1).1 ∧
    (processUserMessage md (processUserMessage md w).1).2.isSome = true := by
  have hket : ∀ pn w', (getOrCreateSession pn w').2.processed = w'.processed := by
    intro pn w'
    unfold getOrCreateSession
    cases w'.sessions.lookup pn <;> simp
  refine ⟨?_, ?_, ?_, ?_⟩ <;>
    simp [processUserMessage, hid, putSession, hket, List.lookup]

/-- C10 witness: the no-id theorem applied to a concrete message in a world
that already saw the same content. -/
theorem c10_witness :
    (processUserMessage exMdNoId exWorld).1.processed = exWorld.processed ∧
    (processUserMessage exMdNoId exWorld).2.isSome = true :=
  ⟨(c10_no_id_skips_dedup exWorld exMdNoId rfl).1, by
    rw [(c10_no_id_skips_dedup exWorld exMdNoId rfl).2.1]; rfl⟩

/-- C5 counterexample: on `"wetin bawo"` pidgin and yoruba tie at score 1
(nonzero); the claim demands the FIRST language of the declared order
(pidgin), but `detectLanguage` returns `yoruba`. -/
theorem c5_counterexample :
    pidginScore "wetin bawo" = 1 ∧ yorubaScore "wetin bawo" = 1 ∧
    igboScore "wetin bawo" = 0 ∧ hausaScore "wetin bawo" = 0 ∧
    detectLanguage "wetin bawo" = "yoruba" ∧
    detectLanguage "wetin bawo" ≠ "pidgin" := by
  decide

/-- C5 amended: `detectLanguage` returns the maximal-scoring language and
defaults to `english` when all scores are zero, but a tie between equal
maximal scores resolves to the LAST tied language in the declared order
pidgin, yoruba, igbo, hausa (the reduce keeps the running winner only on a
strictly greater score), not the first. -/
theorem c5_detect_language_argmax (t : String) :
    (pidginScore t = 0 ∧ yorubaScore t = 0 ∧ igboScore t = 0 ∧ hausaScore t = 0 →
      detectLanguage t = "english") ∧
    (¬(pidginScore t = 0 ∧ yorubaScore t = 0 ∧ igboScore t = 0 ∧ hausaScore t = 0) →
      ((detectLanguage t = "pidgin" ∧ yorubaScore t < pidginScore t ∧
          igboScore t < pidginScore t ∧ hausaScore t < pidginScore t) ∨
       (detectLanguage t = "yoruba" ∧ pidginScore t ≤ yorubaScore t ∧
          igboScore t < yorubaScore t ∧ hausaScore t < yorubaScore t) ∨
       (detectLanguage t = "igbo" ∧ pidginScore t ≤ igboScore t ∧
          yorubaScore t ≤ igboScore t ∧ hausaScore t < igboScore t) ∨
       (detectLanguage t = "hausa" ∧ pidginScore t ≤ hausaScore t ∧
          yorubaScore t ≤ hausaScore t ∧ igboScore t ≤ hausaScore t))) := by
  unfold detectLanguage
  simp only [List.foldl]
  generalize pidginScore t = sp
  generalize yorubaScore t = sy
  generalize igboScore t = si
  generalize hausaScore t = sh
  constructor
  · rintro ⟨h1, h2, h3, h4⟩
    subst h1 h2 h3 h4
    simp
  · intro hne
    split_ifs with h1 h2 h3 h4 <;> simp_all <;> omega

/-- C5 witness: the argmax theorem applied at a text with a unique maximal
score (`"wetin dey happen"`: pidgin dominates). -/
theorem c5_witness :
    (detectLanguage "wetin dey happen" = "pidgin" ∧
       yorubaScore "wetin dey happen" < pidginScore "wetin dey happen" ∧
       igboScore "wetin dey happen" < pidginScore "wetin dey happen" ∧
       hausaScore "wetin dey happen" < pidginScore "wetin dey happen") ∨
    (detectLanguage "wetin dey happen" = "yoruba" ∧
       pidginScore "wetin dey happen" ≤ yorubaScore "wetin dey happen" ∧
       igboScore "wetin dey happen" < yorubaScore "wetin dey happen" ∧
       hausaScore "wetin dey happen" < yorubaScore "wetin dey happen") ∨
    (detectLanguage "wetin dey happen" = "igbo" ∧
       pidginScore "wetin dey happen" ≤ igboScore "wetin dey happen" ∧
       yorubaScore "wetin dey happen" ≤ igboScore "wetin dey happen" ∧
       hausaScore "wetin dey happen" < igboScore "wetin dey happen") ∨
    (detectLanguage "wetin dey happen" = "hausa" ∧
       pidginScore "wetin dey happen" ≤ hausaScore "wetin dey happen" ∧
       yorubaScore "wetin dey happen" ≤ hausaScore "wetin dey happen" ∧
       igboScore "wetin dey happen" ≤ hausaScore "wetin dey happen") :=
  (c5_detect_language_argmax "wetin dey happen").2 (by decide)

/-- C6: the claim (and the code's own `age <= 120` range check) intend ages
up to 120 to be extractable, but the regex `\b(\d{1,2})\b` only ever matches
one or two digits, so three-digit ages 100-120 are never captured: on
`"I am 105 years old, male"` no age is recorded (gender is), while the
two-digit `"I am 25 years old, male"` works; the stage still always advances
to `COLLECTING_SYMPTOMS`. -/
theorem c6_age_regex_misses_three_digits :
    (1 ≤ 105 ∧ 105 ≤ 120) ∧
    extractDemographics "I am 105 years old, male"
      = { age := none, gender := some "male" } ∧
    extractDemographics "I am 25 years old, male"
      = { age := some 25, gender := some "male" } ∧
    (manageConversation (textMsg "I am 105 years old, male")
      (sessionAt COLLECTING_DEMOGRAPHICS)).1.age = none ∧
    (manageConversation (textMsg "I am 105 years old, male")
      (sessionAt COLLECTING_DEMOGRAPHICS)).1.gender = some "male" ∧
    (manageConversation (textMsg "I am 105 years old, male")
      (sessionAt COLLECTING_DEMOGRAPHICS)).1.conversationState = COLLECTING_SYMPTOMS := by
  decide

/-- C8: validation passes exactly when the payload has a resolvable (truthy)
message type, a resolvable user key (`payload.payload?.sender?.phone ||
payload.mobile`), and that key passes the phone-format regex
`^\+?[1-9]\d{1,14}$`; otherwise the pipeline rejects with the validation
errors before touching any session state. -/
theorem c8_validation_exact (op : Option Payload) (w : World) :
    (validateWebhookPayload op = [] ↔
      ∃ p, op = some p ∧
        (!jsTruthy p.ptype && !jsTruthy (p.inner.bind InnerPayload.ptype)) = false ∧
        jsTruthy (resolvedPhone p) = true ∧
        phoneFormatOk ((resolvedPhone p).getD "") = true) ∧
    (validateWebhookPayload op ≠ [] →
      processWebhook op w = (w, WebhookResult.invalid (validateWebhookPayload op))) := by
  constructor
  · cases op with
    | none => simp [validateWebhookPayload]
    | some p =>
      simp only [validateWebhookPayload]
      by_cases h1 : (!jsTruthy p.ptype && !jsTruthy (p.inner.bind InnerPayload.ptype)) = true <;>
      by_cases h2 : jsTruthy (resolvedPhone p) = true <;>
      by_cases h3 : phoneFormatOk ((resolvedPhone p).getD "") = true <;>
        simp_all
  · intro hne
    have hfalse : (validateWebhookPayload op).isEmpty = false := by
      cases hv : validateWebhookPayload op with
      | nil => exact absurd hv hne
      | cons a l => rfl
    simp [processWebhook, hfalse]

/-- C8 witness: validation exactness applied to a missing payload, which is
rejected with no change to the world. -/
theorem c8_witness :
    validateWebhookPayload none ≠ [] ∧
    processWebhook none emptyWorld
      = (emptyWorld, WebhookResult.invalid ["Empty payload"]) :=
  ⟨by decide, (c8_validation_exact none emptyWorld).2 (by decide)⟩

end HealthGrid
